import Mathlib

/-!
Verification of the visitor-tracking middleware of django-tracking
(`tracking/middleware.py`, with the data model of `tracking/models.py`).

Byte strings of the Python 2 code are modelled as lists of byte values
(`Str := List Nat`); `unicode(s, errors='ignore')` under the implicit ASCII
codec keeps exactly the bytes below 128.  Timestamps are integers (seconds).
The backing store is a list of `Visitor` rows; Django ORM calls become
explicit functions on that list, and a raised exception that the middleware
does not catch is recorded in the resulting state (`escaped`) or returned as
`Except.error`.
-/

/-- Byte strings: each entry is one byte (or, for decoded text, one code point). -/
abbrev Str := List Nat

/-- The byte string of an ASCII string literal. -/
def String.bytes (s : String) : Str := s.data.map Char.toNat

namespace Tracking

/-- Decoding with `errors='ignore'` (as in `unicode(user_agent, errors='ignore')`,
middleware.py line 78): bytes that the ASCII codec cannot decode are dropped. -/
def asciiDecodeIgnore (bs : Str) : Str := bs.filter (fun b => decide (b < 128))

/-- Strict ASCII decoding: fails on any byte the codec cannot decode.  The
middleware never uses this mode; it documents what "failing to decode" means. -/
def asciiDecodeStrict (bs : Str) : Except Unit Str :=
  if bs.all (fun b => decide (b < 128)) then Except.ok bs else Except.error ()

/-- Python `haystack.find(needle) != -1`: the needle occurs contiguously. -/
def hasSub (kw s : Str) : Bool := decide (kw <:+: s)

/-- Python `path.startswith(p)`. -/
def startsW (p s : Str) : Bool := decide (p <+: s)

/-- Truthiness of an optional string: `None` and the empty string are falsy. -/
def truthy : Option Str → Bool
  | none => false
  | some s => !s.isEmpty

/-- Python `a or b` on optional strings: `a` when truthy, else `b`. -/
def pyOr (a b : Option Str) : Option Str := if truthy a then a else b

/-- A row of the `Visitor` model (models.py lines 38-50).  `id` is the primary
key, `none` until the row is first saved.  `session_start` and `last_update`
are `none` until assigned (DateTimeField with no default); `user` is `none`
for anonymous visitors; `tid` defaults to the empty string (blank=True). -/
structure Visitor where
  id : Option Str
  session_key : Str
  ip_address : Str
  user : Option Str
  user_agent : Str
  referrer : Str
  url : Str
  page_views : Nat
  session_start : Option Int
  last_update : Option Int
  tid : Str
deriving DecidableEq, Repr

/-- The request's session object; `key` is `none` until `session.save()`
assigns one. -/
structure Session where
  key : Option Str
deriving DecidableEq, Repr

/-- The parts of the HTTP request the middleware reads.  `ip_address` stands
for `utils.get_ip(request)` (utils.py is not part of the sources; the spec
describes it only as the client address).  `session = none` models a request
object with no `session` attribute. -/
structure Request where
  is_ajax : Bool
  ip_address : Str
  http_user_agent : Str
  http_referer : Option Str
  path : Str
  cookies_visitor_id : Option Str
  get_tid : Option Str
  get_fb_source : Option Str
  session : Option Session
  user : Option Str
deriving DecidableEq, Repr

/-- Ambient configuration and nondeterminism of one request: the untracked
user-agent keywords (the cached `UntrackedUserAgent` rows), the resolved
no-tracking path list, the session key a forced `session.save()` would
assign, the primary key the store would give a new row, the current time,
and whether the store fails on the lookup (`dbError`) or on the save
(`saveError`, Django's `DatabaseError`). -/
structure Env where
  untracked : List Str
  ignoredPaths : List Str
  newSessionKey : Str
  nextId : Str
  now : Int
  dbError : Bool
  saveError : Bool
deriving DecidableEq, Repr

/-- Everything `VisitorTrackingMiddleware.process_request` can observably do:
the visitor table after the call, whether the untracked-user-agent cache was
read, whether a forced `session.save()` ran, whether a store lookup was
attempted, the visitor attached as `request.visitor`, the value stored under
`session['visitor_id']` (`none` when the key was never written), and an
exception escaping to the caller, if any. -/
structure TrackState where
  visitors : List Visitor
  cacheRead : Bool
  sessionSaved : Bool
  lookupAttempted : Bool
  requestVisitor : Option Visitor
  sessionVisitorId : Option (Option Str)
  escaped : Option String
deriving DecidableEq, Repr

/-- The state of a request the middleware has not touched. -/
def baseState (db : List Visitor) : TrackState :=
  { visitors := db, cacheRead := false, sessionSaved := false,
    lookupAttempted := false, requestVisitor := none,
    sessionVisitorId := none, escaped := none }

/-- Outcome of `Visitor.objects.get(**attrs)`. -/
inductive Lookup where
  | found (v : Visitor)
  | notFound
  | err
deriving DecidableEq, Repr

/-- `Visitor.objects.get(**attrs)`: `DoesNotExist` on zero matches, the row on
exactly one, and any other error (store failure, `MultipleObjectsReturned`)
as `err` — middleware.py lines 116-129 catch the latter with a bare
`except`. -/
def dbGet (db : List Visitor) (dberr : Bool) (p : Visitor → Bool) : Lookup :=
  if dberr then Lookup.err
  else
    match db.filter p with
    | [] => Lookup.notFound
    | [v] => Lookup.found v
    | _ => Lookup.err

/-- `visitor.save()`: a row with a primary key updates in place, a row without
one is inserted and given the fresh key (Django assigns `pk` on the saved
instance). -/
def dbSave (db : List Visitor) (newId : Str) (v : Visitor) : List Visitor × Visitor :=
  match v.id with
  | some i => (db.map (fun w => if w.id == some i then v else w), v)
  | none =>
    let v2 := { v with id := some newId }
    (db ++ [v2], v2)

/-- The exclusion match of middleware.py lines 76-80: some untracked keyword
occurs in the user agent decoded with `errors='ignore'`. -/
def uaExcluded (untracked : List Str) (ua : Str) : Bool :=
  untracked.any (fun kw => hasSub kw (asciiDecodeIgnore ua))

/-- Modelled from the spec: `utils.u_clean` (utils.py is not among the
sources).  The spec says only that the referrer header value is captured as
best-effort text, so it is modelled as the identity on byte strings. -/
def uClean (s : Str) : Str := s

/-- Session-key derivation, middleware.py lines 82-89: use the session's key;
if the session has none yet, `session.save()` assigns one (the `Bool` records
that forced persistence write); with no session attribute at all, fall back
to `ip_address:user_agent`. -/
def deriveSessionKey (env : Env) (req : Request) : Str × Bool :=
  match req.session with
  | some sess =>
    match sess.key with
    | some k => (k, false)
    | none => (env.newSessionKey, true)
  | none => (req.ip_address ++ (58 :: req.http_user_agent.take 255), false)

/-- Lookup key selection and lookup, middleware.py lines 107-117: a truthy
`visitor_id` cookie means lookup by primary key alone; otherwise lookup by
the `(session_key, ip_address)` pair. -/
def visitorLookup (env : Env) (req : Request) (db : List Visitor) : Lookup :=
  if truthy req.cookies_visitor_id then
    dbGet db env.dbError (fun v => v.id == some (req.cookies_visitor_id.getD []))
  else
    dbGet db env.dbError
      (fun v => v.session_key == (deriveSessionKey env req).1 && v.ip_address == req.ip_address)

/-- The exception of `request.session['visitor_id'] = visitor.pk` on a request
without a session attribute. -/
def attrErrSession : String := "AttributeError: request object has no attribute session"

/-- Middleware.py lines 131-157: update the resolved visitor, save it
(`DatabaseError` is caught and logged, line 153), attach it to the request,
and store its primary key in the session — the last step raises
`AttributeError` when the request has no session attribute. -/
def finishTracking (env : Env) (req : Request) (s : TrackState) (visitor : Visitor) : TrackState :=
  let user_agent := req.http_user_agent.take 255
  let v1 := { visitor with user := req.user, user_agent := user_agent }
  let v2 :=
    if v1.last_update = none then
      { v1 with
        referrer := uClean ((req.http_referer.getD "unknown".bytes).take 255),
        page_views := 0,
        session_start := some env.now }
    else v1
  let v3 := { v2 with url := req.path, page_views := v2.page_views + 1, last_update := some env.now }
  let saved := if env.saveError then (s.visitors, v3) else dbSave s.visitors env.nextId v3
  let s4 := { s with visitors := saved.1, requestVisitor := some saved.2 }
  match req.session with
  | some _ => { s4 with sessionVisitorId := some saved.2.id }
  | none => { s4 with escaped := some attrErrSession }

/-- `VisitorTrackingMiddleware.process_request` (middleware.py lines 59-157),
step by step: the AJAX bail-out, the cache-backed untracked-user-agent check,
session-key derivation, the no-tracking path check, the cookie-or-pair
lookup with its `DoesNotExist` and bare-except branches (on `DoesNotExist`
the tracking parameter lands in `attrs`, which is the same dict as
`new_attrs` only when no cookie was presented), and the update/save/attach
tail. -/
def processRequest (env : Env) (req : Request) (db : List Visitor) : TrackState :=
  if req.is_ajax then baseState db
  else
    let user_agent := req.http_user_agent.take 255
    let s1 := { baseState db with cacheRead := true }
    if uaExcluded env.untracked user_agent then s1
    else
      let sk := deriveSessionKey env req
      let s2 := { s1 with sessionSaved := sk.2 }
      if env.ignoredPaths.any (fun p => startsW p req.path) then s2
      else
        let s3 := { s2 with lookupAttempted := true }
        match visitorLookup env req db with
        | Lookup.err => s3
        | Lookup.notFound =>
          let tid := pyOr req.get_tid req.get_fb_source
          let newTid :=
            if truthy tid && !truthy req.cookies_visitor_id then tid.getD [] else []
          finishTracking env req s3
            { id := none, session_key := sk.1, ip_address := req.ip_address, user := none,
              user_agent := [], referrer := [], url := [], page_views := 0,
              session_start := none, last_update := none, tid := newTid }
        | Lookup.found v => finishTracking env req s3 v

/-- A cookie written by `response.set_cookie` (middleware.py lines 172-181);
`expires` is `cookie_date(time.time() + max_age)` kept as the raw epoch
second. -/
structure SetCookie where
  key : Str
  value : Str
  maxAge : Nat
  expires : Nat
  domain : Option Str
  path : Str
  secure : Bool
  httponly : Bool
deriving DecidableEq, Repr

/-- The response: the list of cookies set on it. -/
structure HttpResponse where
  cookies : List SetCookie
deriving DecidableEq, Repr

/-- What `process_response` reads: whether the request object has a session
attribute, the `visitor_id` entry of the session (outer `none` = key absent
from the session dict), the visitor attached as `request.visitor` (`none` =
attribute absent), `request.session.get_expiry_age()`, `time.time()`, and the
`SESSION_COOKIE_DOMAIN` / `SESSION_COOKIE_PATH` settings. -/
structure ResponseCtx where
  hasSession : Bool
  sessionVisitorId : Option (Option Str)
  requestVisitor : Option Visitor
  expiryAge : Nat
  timeNow : Nat
  cookieDomain : Option Str
  cookiePath : Str
deriving DecidableEq, Repr

/-- The visitor-id resolution of middleware.py lines 160-165: the session
entry when the key is present, else the attached visitor's primary key, else
`None`. -/
def resolveVid (ctx : ResponseCtx) : Option Str :=
  match ctx.sessionVisitorId with
  | some stored => stored
  | none =>
    match ctx.requestVisitor with
    | some vis => vis.id
    | none => none

/-- The cookie `process_response` sets for a truthy visitor id (middleware.py
lines 172-181). -/
def visitorCookie (v : Str) (ctx : ResponseCtx) : SetCookie :=
  { key := "visitor_id".bytes, value := v,
    maxAge := ctx.expiryAge, expires := ctx.timeNow + ctx.expiryAge,
    domain := ctx.cookieDomain, path := ctx.cookiePath,
    secure := false, httponly := false }

/-- `VisitorTrackingMiddleware.process_response` (middleware.py lines
159-183).  Line 160 reads `request.session` unconditionally, so a request
without a session attribute raises `AttributeError`; a truthy resolved id is
bound into a cookie, a falsy one leaves the response untouched. -/
def processResponse (ctx : ResponseCtx) (resp : HttpResponse) : Except String HttpResponse :=
  if !ctx.hasSession then Except.error attrErrSession
  else
    let vid := resolveVid ctx
    if truthy vid then
      Except.ok { resp with cookies := resp.cookies ++ [visitorCookie (vid.getD []) ctx] }
    else Except.ok resp

/-- The attributes of the `datetime` class bound by middleware.py line 1,
`from datetime import datetime` (class methods, class attributes and instance
methods of `datetime.datetime`).  `timedelta` is a separate class of the
`datetime` module, not an attribute of the `datetime` class. -/
def datetimeClassAttrs : List String :=
  ["now", "today", "utcnow", "fromtimestamp", "utcfromtimestamp", "fromordinal",
   "combine", "strptime", "min", "max", "resolution", "year", "month", "day",
   "hour", "minute", "second", "microsecond", "tzinfo", "date", "time",
   "timetz", "replace", "astimezone", "utcoffset", "dst", "tzname",
   "timetuple", "utctimetuple", "toordinal", "weekday", "isoweekday",
   "isocalendar", "isoformat", "ctime", "strftime"]

/-- The exception of evaluating `datetime.timedelta` (middleware.py line
193). -/
def timedeltaAttrErr : String :=
  "AttributeError: class datetime has no attribute timedelta"

/-- The SQL-style comparison behind `last_update__lte=cutoff`: a row with no
`last_update` matches nothing. -/
def optLE : Option Int → Int → Bool
  | none, _ => false
  | some t, c => t ≤ c

/-- `VisitorCleanUpMiddleware.process_request` (middleware.py lines 188-194).
`utils.get_cleanup_timeout` is modelled from the spec (utils.py is not among
the sources): the configured timeout in hours, absent = disabled; with no
timeout, `str(None).isdigit()` is false and nothing happens.  With a timeout
the code evaluates `datetime.timedelta(hours=...)`, but line 1 bound
`datetime` to the class, which has no `timedelta` attribute, so the
expression raises `AttributeError` before any row is deleted; the then-branch
records the delete the line would otherwise perform. -/
def cleanupProcessRequest (timeout : Option Nat) (now : Int) (db : List Visitor) :
    Except String (List Visitor) :=
  match timeout with
  | none => Except.ok db
  | some t =>
    if datetimeClassAttrs.contains "timedelta" then
      Except.ok (db.filter (fun v => !optLE v.last_update (now - (t : Int) * 3600)))
    else Except.error timedeltaAttrErr

/-- Modelled from the spec: the Cleanup Sweeper contract — "given a configured
timeout in hours, delete every identity whose last_activity_time is older
than now - timeout", and "No timeout configured, no-op".  This is the
specification-side definition to compare `cleanupProcessRequest` against. -/
def cleanupSpec (timeout : Option Nat) (now : Int) (db : List Visitor) : List Visitor :=
  match timeout with
  | none => db
  | some t => db.filter (fun v => !optLE v.last_update (now - (t : Int) * 3600))

/-- The state a request that passed the AJAX, exclusion and path checks has
at the moment of the lookup: the cache was read, the session key derived
(possibly via a forced save), the lookup attempted, nothing else done yet. -/
def trackedState (env : Env) (req : Request) (db : List Visitor) : TrackState :=
  { baseState db with
    cacheRead := true, sessionSaved := (deriveSessionKey env req).2,
    lookupAttempted := true }

/-- The fresh `Visitor(**new_attrs)` row built in the `DoesNotExist` branch,
with the tracking parameter landing in it exactly when `attrs` aliases
`new_attrs`, i.e. when no truthy cookie was presented. -/
def newVisitor (env : Env) (req : Request) : Visitor :=
  { id := none, session_key := (deriveSessionKey env req).1,
    ip_address := req.ip_address, user := none, user_agent := [], referrer := [],
    url := [], page_views := 0, session_start := none, last_update := none,
    tid :=
      if truthy (pyOr req.get_tid req.get_fb_source) && !truthy req.cookies_visitor_id
      then (pyOr req.get_tid req.get_fb_source).getD [] else [] }

/-- The visitor instance as it stands after the update/save tail of
`process_request`: the activity fields rewritten, the session-start fields
rewritten exactly when there was no prior `last_update`, and the primary key
assigned by a successful insert. -/
def updatedVisitor (env : Env) (req : Request) (v : Visitor) : Visitor :=
  let v1 := { v with user := req.user, user_agent := req.http_user_agent.take 255 }
  let v2 :=
    if v.last_update = none then
      { v1 with
        referrer := uClean ((req.http_referer.getD "unknown".bytes).take 255),
        page_views := 0, session_start := some env.now }
    else v1
  let v3 := { v2 with url := req.path, page_views := v2.page_views + 1, last_update := some env.now }
  if env.saveError then v3
  else
    match v3.id with
    | some _ => v3
    | none => { v3 with id := some env.nextId }

/-! Concrete fixtures for witnesses and counterexamples. -/

/-- A plain environment: nothing untracked, no ignored paths, no store
failures. -/
def env0 : Env :=
  { untracked := [], ignoredPaths := [], newSessionKey := "NEWSK".bytes,
    nextId := "7".bytes, now := 5000, dbError := false, saveError := false }

/-- An environment whose exclusion patterns contain the keyword
"Googlebot". -/
def envG : Env := { env0 with untracked := ["Googlebot".bytes] }

/-- An environment with one exclusion keyword that is a single non-ASCII
code point. -/
def envN : Env := { env0 with untracked := [[200]] }

/-- An environment that ignores paths under "/media/". -/
def envM : Env := { env0 with ignoredPaths := ["/media/".bytes] }

/-- A plain request: not AJAX, a session with a key, no visitor cookie, no
tracking parameters. -/
def req0 : Request :=
  { is_ajax := false, ip_address := "1.2.3.4".bytes,
    http_user_agent := "Mozilla".bytes,
    http_referer := some "http://r.example/a".bytes,
    path := "/page".bytes, cookies_visitor_id := none,
    get_tid := none, get_fb_source := none,
    session := some { key := some "sess1".bytes }, user := none }

/-- The plain request flagged as AJAX. -/
def reqAjax : Request := { req0 with is_ajax := true }

/-- A request with a stale visitor-id cookie (no row has id "99") and a
tracking parameter. -/
def reqStale : Request :=
  { req0 with cookies_visitor_id := some "99".bytes, get_tid := some "camp".bytes }

/-- A request with a tracking parameter and no visitor-id cookie. -/
def reqTid : Request := { req0 with get_tid := some "camp".bytes }

/-- A request whose user agent contains the keyword "Googlebot" within its
first 255 bytes. -/
def reqBot : Request :=
  { req0 with http_user_agent := "Mozilla compatible Googlebot 2.1".bytes }

/-- A request whose user agent contains "Googlebot" only beyond byte 255:
250 copies of the byte 97 followed by the keyword. -/
def reqLongUA : Request :=
  { req0 with http_user_agent := List.replicate 250 97 ++ "Googlebot".bytes }

/-- A request whose user agent is the single undecodable byte 200. -/
def reqNA : Request := { req0 with http_user_agent := [200] }

/-- A request to an ignored path from a session that has no key yet. -/
def reqMedia : Request :=
  { req0 with path := "/media/logo.png".bytes, session := some { key := none } }

/-- A stored visitor row matching req0's session key and address. -/
def vStored : Visitor :=
  { id := some "5".bytes, session_key := "sess1".bytes, ip_address := "1.2.3.4".bytes,
    user := none, user_agent := "old".bytes, referrer := "r0".bytes, url := "/old".bytes,
    page_views := 3, session_start := some 1000, last_update := some 2000,
    tid := "orig".bytes }

/-- A stored visitor row with primary key "42" and a different address. -/
def vCookie : Visitor :=
  { vStored with
    id := some "42".bytes, session_key := "othersess".bytes,
    ip_address := "9.9.9.9".bytes }

/-- The request of a returning browser presenting the visitor-id cookie
"42" from a changed network address. -/
def reqReturn : Request :=
  { req0 with cookies_visitor_id := some "42".bytes, ip_address := "5.6.7.8".bytes }

/-- An environment whose store lookup fails. -/
def envErr : Env := { env0 with dbError := true }

/-- A visitor last active ten hours before time 100000. -/
def vOld : Visitor := { vStored with id := some "1".bytes, last_update := some 64000 }

/-- A visitor last active one hour before time 100000. -/
def vNew : Visitor :=
  { vStored with
    id := some "2".bytes, session_key := "s2".bytes, last_update := some 96400 }

/-- A response context holding the visitor id "abc" in the session, with a
session expiry of 3600 seconds. -/
def ctxAbc : ResponseCtx :=
  { hasSession := true, sessionVisitorId := some (some "abc".bytes),
    requestVisitor := none, expiryAge := 3600, timeNow := 100,
    cookieDomain := some "example.com".bytes, cookiePath := "/".bytes }

/-- A response context with no session entry but an attached visitor. -/
def ctxAttached : ResponseCtx :=
  { ctxAbc with sessionVisitorId := none, requestVisitor := some vStored }

/-- A response context with no visitor id available at all. -/
def ctxNoId : ResponseCtx :=
  { ctxAbc with sessionVisitorId := none, requestVisitor := none }

/-- An empty response. -/
def resp0 : HttpResponse := { cookies := [] }

/-! Helper lemmas. -/

/-- On a non-AJAX, non-excluded, non-ignored request whose lookup errors,
`process_request` stops at the bare `except`. -/
theorem processRequest_err (env : Env) (req : Request) (db : List Visitor)
    (h1 : req.is_ajax = false)
    (h2 : uaExcluded env.untracked (req.http_user_agent.take 255) = false)
    (h3 : env.ignoredPaths.any (fun p => startsW p req.path) = false)
    (hl : visitorLookup env req db = Lookup.err) :
    processRequest env req db = trackedState env req db := by
  simp [processRequest, h1, h2, h3, hl, trackedState]

/-- On a non-AJAX, non-excluded, non-ignored request whose lookup finds a
row, `process_request` continues with that row. -/
theorem processRequest_found (env : Env) (req : Request) (db : List Visitor) (v0 : Visitor)
    (h1 : req.is_ajax = false)
    (h2 : uaExcluded env.untracked (req.http_user_agent.take 255) = false)
    (h3 : env.ignoredPaths.any (fun p => startsW p req.path) = false)
    (hl : visitorLookup env req db = Lookup.found v0) :
    processRequest env req db = finishTracking env req (trackedState env req db) v0 := by
  simp [processRequest, h1, h2, h3, hl, trackedState]

/-- On a non-AJAX, non-excluded, non-ignored request whose lookup raises
`DoesNotExist`, `process_request` continues with the fresh row. -/
theorem processRequest_notFound (env : Env) (req : Request) (db : List Visitor)
    (h1 : req.is_ajax = false)
    (h2 : uaExcluded env.untracked (req.http_user_agent.take 255) = false)
    (h3 : env.ignoredPaths.any (fun p => startsW p req.path) = false)
    (hl : visitorLookup env req db = Lookup.notFound) :
    processRequest env req db =
      finishTracking env req (trackedState env req db) (newVisitor env req) := by
  simp [processRequest, h1, h2, h3, hl, trackedState, newVisitor]

/-- The visitor attached to the request by the update/save tail is
`updatedVisitor`. -/
theorem finishTracking_requestVisitor (env : Env) (req : Request) (s : TrackState) (v : Visitor) :
    (finishTracking env req s v).requestVisitor = some (updatedVisitor env req v) := by
  unfold finishTracking updatedVisitor
  cases req.session <;> cases env.saveError <;> cases h : v.last_update <;>
    simp [dbSave, h] <;> split <;> simp_all

/-- A nonempty optional string is truthy. -/
theorem truthy_some (t : Str) (h : t ≠ []) : truthy (some t) = true := by
  cases t with
  | nil => exact absurd rfl h
  | cons a l => rfl

/-- With a truthy cookie the lookup is by primary key alone. -/
theorem visitorLookup_byId (env : Env) (req : Request) (db : List Visitor) (cid : Str)
    (hc : req.cookies_visitor_id = some cid) (hne : cid ≠ [])
    (hdb : env.dbError = false) :
    visitorLookup env req db = dbGet db false (fun v => v.id == some cid) := by
  unfold visitorLookup
  rw [hc]
  simp [truthy_some cid hne, hdb]

/-- With no truthy cookie the lookup is by the session-key/address pair. -/
theorem visitorLookup_byPair (env : Env) (req : Request) (db : List Visitor)
    (hc : truthy req.cookies_visitor_id = false) (hdb : env.dbError = false) :
    visitorLookup env req db =
      dbGet db false
        (fun v => v.session_key == (deriveSessionKey env req).1 && v.ip_address == req.ip_address) := by
  unfold visitorLookup
  simp [hc, hdb]

/-- A filter with exactly one row makes the lookup find it. -/
theorem dbGet_single (db : List Visitor) (p : Visitor → Bool) (v0 : Visitor)
    (h : db.filter p = [v0]) : dbGet db false p = Lookup.found v0 := by
  unfold dbGet
  simp [h]

/-- An empty filter makes the lookup raise `DoesNotExist`. -/
theorem dbGet_empty (db : List Visitor) (p : Visitor → Bool)
    (h : db.filter p = []) : dbGet db false p = Lookup.notFound := by
  unfold dbGet
  simp [h]

/-- The unique row of a singleton filter satisfies the filter's predicate. -/
theorem filter_single_prop (db : List Visitor) (p : Visitor → Bool) (v0 : Visitor)
    (h : db.filter p = [v0]) : p v0 = true := by
  have hm : v0 ∈ db.filter p := by
    rw [h]
    exact List.mem_singleton.mpr rfl
  exact (List.mem_filter.mp hm).2

/-- The fields of the updated visitor: identity fields kept, activity fields
rewritten, session-start fields rewritten exactly when there was no prior
`last_update`. -/
theorem updatedVisitor_fields (env : Env) (req : Request) (v : Visitor) :
    (updatedVisitor env req v).tid = v.tid ∧
    (updatedVisitor env req v).session_key = v.session_key ∧
    (updatedVisitor env req v).ip_address = v.ip_address ∧
    (updatedVisitor env req v).url = req.path ∧
    (updatedVisitor env req v).last_update = some env.now ∧
    (updatedVisitor env req v).page_views
      = (if v.last_update = none then 0 else v.page_views) + 1 ∧
    (updatedVisitor env req v).referrer
      = (if v.last_update = none then
          uClean ((req.http_referer.getD "unknown".bytes).take 255) else v.referrer) ∧
    (updatedVisitor env req v).session_start
      = (if v.last_update = none then some env.now else v.session_start) := by
  unfold updatedVisitor
  cases h : v.last_update <;> cases env.saveError <;> simp [h] <;> split <;> simp_all

/-- A visitor that already has a primary key keeps it through the update. -/
theorem updatedVisitor_id_of_some (env : Env) (req : Request) (v : Visitor)
    (h : v.id ≠ none) : (updatedVisitor env req v).id = v.id := by
  unfold updatedVisitor
  cases hlu : v.last_update <;> cases env.saveError <;> cases hid : v.id <;> simp_all

/-- A keyless visitor gets the store's fresh key on a successful save. -/
theorem updatedVisitor_id_of_none (env : Env) (req : Request) (v : Visitor)
    (h : v.id = none) (hs : env.saveError = false) :
    (updatedVisitor env req v).id = some env.nextId := by
  unfold updatedVisitor
  cases hlu : v.last_update <;> simp_all

/-- An all-ASCII keyword that occurs in a byte string still occurs after the
ignore-errors decode drops the undecodable bytes. -/
theorem hasSub_ascii_decode (kw ua : Str)
    (hk : kw.all (fun b => decide (b < 128)) = true)
    (h : hasSub kw ua = true) :
    hasSub kw (asciiDecodeIgnore ua) = true := by
  unfold hasSub at h ⊢
  rw [decide_eq_true_eq] at h ⊢
  obtain ⟨s, t, hst⟩ := h
  refine ⟨s.filter (fun b => decide (b < 128)), t.filter (fun b => decide (b < 128)), ?_⟩
  have hkf : kw.filter (fun b => decide (b < 128)) = kw :=
    List.filter_eq_self.mpr (by simpa using List.all_eq_true.mp hk)
  rw [asciiDecodeIgnore, ← hst, List.filter_append, List.filter_append, hkf]

/-! Claim theorems. -/

/-- C10: for every request flagged as an AJAX request, the tracking middleware
returns immediately — no exclusion-cache read, no forced session write, no
lookup, no visitor attached, the visitor table and all tracking state left
unchanged, and no exception escapes. -/
theorem c10_ajax_untouched (env : Env) (req : Request) (db : List Visitor)
    (h : req.is_ajax = true) :
    processRequest env req db = baseState db := by
  simp [processRequest, h]

/-- Witness for c10_ajax_untouched at the concrete AJAX request. -/
theorem c10_ajax_untouched_witness :
    reqAjax.is_ajax = true ∧ processRequest env0 reqAjax [] = baseState [] :=
  ⟨rfl, c10_ajax_untouched env0 reqAjax [] rfl⟩

/-- C1 (code bug): whenever a cleanup timeout is configured, the Cleanup
Sweeper raises an AttributeError that escapes to the caller — middleware.py
line 1 binds the name datetime to the class, which has no timedelta
attribute, and line 193 evaluates datetime.timedelta with no enclosing
exception handler, so the tracking pipeline does fail the primary request. -/
theorem c1_cleanup_error_escapes (t : Nat) (now : Int) (db : List Visitor) :
    cleanupProcessRequest (some t) now db = Except.error timedeltaAttrErr := by
  simp [cleanupProcessRequest, datetimeClassAttrs]

/-- C2 (code bug): on the spec's own example (identities last active 10 hours
and 1 hour ago, timeout 5 hours, now = 100000), the cleanup contract deletes
exactly the stale identity, but the code instead raises AttributeError and
deletes nothing; the no-timeout case is the contractual no-op. -/
theorem c2_cleanup_dead_code :
    cleanupProcessRequest (some 5) 100000 [vOld, vNew] = Except.error timedeltaAttrErr ∧
    cleanupSpec (some 5) 100000 [vOld, vNew] = [vNew] ∧
    cleanupProcessRequest none 100000 [vOld, vNew] = Except.ok [vOld, vNew] := by
  refine ⟨?_, ?_, rfl⟩
  · simp [cleanupProcessRequest, datetimeClassAttrs]
  · decide

/-- C6: if the lookup raises any error other than not-found (store failure,
modelled by `dbError`), tracking aborts silently — the visitor table is
unchanged, no identity is attached, the session entry is never written, and
no exception escapes. -/
theorem c6_lookup_error_fail_open (env : Env) (req : Request) (db : List Visitor)
    (h1 : req.is_ajax = false)
    (h2 : uaExcluded env.untracked (req.http_user_agent.take 255) = false)
    (h3 : env.ignoredPaths.any (fun p => startsW p req.path) = false)
    (h4 : env.dbError = true) :
    (processRequest env req db).visitors = db ∧
    (processRequest env req db).requestVisitor = none ∧
    (processRequest env req db).sessionVisitorId = none ∧
    (processRequest env req db).escaped = none := by
  have hl : visitorLookup env req db = Lookup.err := by
    unfold visitorLookup dbGet
    rw [h4]
    cases truthy req.cookies_visitor_id <;> simp
  rw [processRequest_err env req db h1 h2 h3 hl]
  simp [trackedState, baseState]

/-- Witness for c6_lookup_error_fail_open: a failing store on an ordinary
request. -/
theorem c6_lookup_error_fail_open_witness :
    envErr.dbError = true ∧
    ((processRequest envErr req0 []).visitors = [] ∧
     (processRequest envErr req0 []).requestVisitor = none ∧
     (processRequest envErr req0 []).sessionVisitorId = none ∧
     (processRequest envErr req0 []).escaped = none) :=
  ⟨rfl, c6_lookup_error_fail_open envErr req0 [] rfl rfl rfl rfl⟩

/-- C8 counterexample: on a request to an ignored path ("/media/logo.png",
with "/media/" configured) from a session that has no key yet, the claimed
"no session-key derivation (including the forced session-creation
persistence write)" fails — the code derives the session key, forcing the
`session.save()` write, before it checks the path prefixes. -/
theorem c8_counterexample :
    envM.ignoredPaths.any (fun p => startsW p reqMedia.path) = true ∧
    (processRequest envM reqMedia []).sessionSaved = true := by
  constructor
  · decide
  · decide

/-- C8 (amended): for every request whose path begins with a configured
ignored path prefix, the check short-circuits before identity resolution —
no identity lookup is attempted, the visitor table is untouched, no identity
is created, updated or attached, the session entry is never written and no
exception escapes — but it runs after session-key derivation, so the forced
session-creation write may already have happened. -/
theorem c8_ignored_path_no_resolution (env : Env) (req : Request) (db : List Visitor)
    (h : env.ignoredPaths.any (fun p => startsW p req.path) = true) :
    (processRequest env req db).lookupAttempted = false ∧
    (processRequest env req db).visitors = db ∧
    (processRequest env req db).requestVisitor = none ∧
    (processRequest env req db).sessionVisitorId = none ∧
    (processRequest env req db).escaped = none := by
  unfold processRequest
  cases ha : req.is_ajax
  · cases he : uaExcluded env.untracked (req.http_user_agent.take 255)
    · simp [he, h, baseState]
    · simp [he, baseState]
  · simp [ha, baseState]

/-- Witness for c8_ignored_path_no_resolution at the ignored-path request. -/
theorem c8_ignored_path_no_resolution_witness :
    envM.ignoredPaths.any (fun p => startsW p reqMedia.path) = true ∧
    ((processRequest envM reqMedia []).lookupAttempted = false ∧
     (processRequest envM reqMedia []).visitors = [] ∧
     (processRequest envM reqMedia []).requestVisitor = none ∧
     (processRequest envM reqMedia []).sessionVisitorId = none ∧
     (processRequest envM reqMedia []).escaped = none) :=
  ⟨by decide, c8_ignored_path_no_resolution envM reqMedia [] (by decide)⟩

set_option maxRecDepth 100000 in
/-- C7 counterexample: two requests whose user agent contains an exclusion
keyword as a substring are nevertheless tracked (an identity is created).
First, the keyword "Googlebot" occurs only beyond byte 255 of the agent and
the match runs on the 255-byte truncation; second, the keyword is the single
non-ASCII code point 200, which the ignore-errors ASCII decode drops from
the agent before matching. -/
theorem c7_counterexample :
    hasSub "Googlebot".bytes reqLongUA.http_user_agent = true ∧
    "Googlebot".bytes ∈ envG.untracked ∧
    (processRequest envG reqLongUA []).requestVisitor ≠ none ∧
    hasSub [200] reqNA.http_user_agent = true ∧
    [200] ∈ envN.untracked ∧
    (processRequest envN reqNA []).requestVisitor ≠ none := by
  refine ⟨by decide, by decide, by decide, by decide, by decide, by decide⟩

/-- C7 (amended): for every request whose user agent's first 255 bytes
contain an all-ASCII exclusion keyword (the agent is truncated to 255 bytes
and best-effort ASCII-decoded before matching), the pipeline returns before
session-key derivation and identity resolution, leaving everything except
the exclusion-cache read untouched; and the match never depends on the
undecodable bytes — user agents with identical ASCII content are excluded
identically, so a decoding failure cannot change or crash the match. -/
theorem c7_excluded_ua :
    (∀ (env : Env) (req : Request) (db : List Visitor) (kw : Str),
      kw ∈ env.untracked →
      kw.all (fun b => decide (b < 128)) = true →
      hasSub kw (req.http_user_agent.take 255) = true →
      req.is_ajax = false →
      processRequest env req db = { baseState db with cacheRead := true }) ∧
    (∀ (kws : List Str) (ua1 ua2 : Str),
      ua1.filter (fun b => decide (b < 128)) = ua2.filter (fun b => decide (b < 128)) →
      uaExcluded kws ua1 = uaExcluded kws ua2) := by
  constructor
  · intro env req db kw hmem hascii hsub hajax
    have hexcl : uaExcluded env.untracked (req.http_user_agent.take 255) = true := by
      unfold uaExcluded
      rw [List.any_eq_true]
      exact ⟨kw, hmem, hasSub_ascii_decode kw _ hascii hsub⟩
    simp [processRequest, hajax, hexcl]
  · intro kws ua1 ua2 h
    unfold uaExcluded asciiDecodeIgnore
    rw [h]

/-- Witness for c7_excluded_ua: the "Googlebot" agent is rejected before any
tracking state changes, and an agent differing only in an undecodable byte
is excluded exactly like its ASCII content. -/
theorem c7_excluded_ua_witness :
    processRequest envG reqBot [] = { baseState [] with cacheRead := true } ∧
    uaExcluded envG.untracked (72 :: 200 :: "Googlebot".bytes)
      = uaExcluded envG.untracked (72 :: "Googlebot".bytes) :=
  ⟨c7_excluded_ua.1 envG reqBot [] "Googlebot".bytes (by decide) (by decide) (by decide) rfl,
   c7_excluded_ua.2 envG.untracked _ _ (by decide)⟩

/-- C4: the session-start fields are written if and only if the resolved
identity has no prior `last_update`.  When the lookup finds nothing, the
resolved identity is brand new: the saved instance has `page_views = 1`,
`session_start = last_update = now`, and its referrer comes from the
request's referrer header (truncated, cleaned, defaulting to "unknown").
When the lookup finds an identity with a prior `last_update`, referrer and
`session_start` keep their stored values and `page_views` is incremented,
not reset. -/
theorem c4_session_start_fields :
    (∀ (env : Env) (req : Request) (db : List Visitor),
      req.is_ajax = false →
      uaExcluded env.untracked (req.http_user_agent.take 255) = false →
      env.ignoredPaths.any (fun p => startsW p req.path) = false →
      visitorLookup env req db = Lookup.notFound →
      ∃ w, (processRequest env req db).requestVisitor = some w ∧
        w.page_views = 1 ∧
        w.session_start = some env.now ∧
        w.last_update = some env.now ∧
        w.referrer = uClean ((req.http_referer.getD "unknown".bytes).take 255)) ∧
    (∀ (env : Env) (req : Request) (db : List Visitor) (v0 : Visitor) (t : Int),
      req.is_ajax = false →
      uaExcluded env.untracked (req.http_user_agent.take 255) = false →
      env.ignoredPaths.any (fun p => startsW p req.path) = false →
      visitorLookup env req db = Lookup.found v0 →
      v0.last_update = some t →
      ∃ w, (processRequest env req db).requestVisitor = some w ∧
        w.referrer = v0.referrer ∧
        w.session_start = v0.session_start ∧
        w.page_views = v0.page_views + 1) := by
  constructor
  · intro env req db h1 h2 h3 hl
    rw [processRequest_notFound env req db h1 h2 h3 hl, finishTracking_requestVisitor]
    obtain ⟨-, -, -, -, hlu, hpv, href, hss⟩ := updatedVisitor_fields env req (newVisitor env req)
    have hnew : (newVisitor env req).last_update = none := rfl
    rw [hnew] at hpv href hss
    simp only [if_pos rfl] at hpv href hss
    exact ⟨_, rfl, hpv, hss, hlu, href⟩
  · intro env req db v0 t h1 h2 h3 hl hprior
    rw [processRequest_found env req db v0 h1 h2 h3 hl, finishTracking_requestVisitor]
    obtain ⟨-, -, -, -, -, hpv, href, hss⟩ := updatedVisitor_fields env req v0
    rw [hprior] at hpv href hss
    simp only [reduceCtorEq, if_neg] at hpv href hss
    · exact ⟨_, rfl, href, hss, hpv⟩

/-- Witness for c4_session_start_fields: a brand-new browser's first request
creates the identity with the session-start fields, and a returning
identity's update preserves them. -/
theorem c4_session_start_fields_witness :
    (∃ w, (processRequest env0 req0 []).requestVisitor = some w ∧
      w.page_views = 1 ∧
      w.session_start = some env0.now ∧
      w.last_update = some env0.now ∧
      w.referrer = uClean ((req0.http_referer.getD "unknown".bytes).take 255)) ∧
    (∃ w, (processRequest env0 reqReturn [vStored, vCookie]).requestVisitor = some w ∧
      w.referrer = vCookie.referrer ∧
      w.session_start = vCookie.session_start ∧
      w.page_views = vCookie.page_views + 1) :=
  ⟨c4_session_start_fields.1 env0 req0 [] rfl rfl rfl (by decide),
   c4_session_start_fields.2 env0 reqReturn [vStored, vCookie] vCookie 2000
     rfl rfl rfl (by decide) rfl⟩

/-- C5: a truthy `visitor_id` cookie makes the lookup go by that id alone —
the hypotheses place no constraint at all on the stored row's address or
session key, so the same identity is reused after an address change — and
the resolved identity's `page_views` grows by exactly one; without such a
cookie the lookup is by the `(session_key, ip_address)` pair, again
incrementing `page_views` by exactly one. -/
theorem c5_cookie_identity_reuse :
    (∀ (env : Env) (req : Request) (db : List Visitor) (cid : Str) (v0 : Visitor) (t : Int),
      req.is_ajax = false →
      uaExcluded env.untracked (req.http_user_agent.take 255) = false →
      env.ignoredPaths.any (fun p => startsW p req.path) = false →
      req.cookies_visitor_id = some cid →
      cid ≠ [] →
      env.dbError = false →
      db.filter (fun v => v.id == some cid) = [v0] →
      v0.last_update = some t →
      ∃ w, (processRequest env req db).requestVisitor = some w ∧
        w.id = some cid ∧
        w.page_views = v0.page_views + 1) ∧
    (∀ (env : Env) (req : Request) (db : List Visitor) (v0 : Visitor) (t : Int),
      req.is_ajax = false →
      uaExcluded env.untracked (req.http_user_agent.take 255) = false →
      env.ignoredPaths.any (fun p => startsW p req.path) = false →
      truthy req.cookies_visitor_id = false →
      env.dbError = false →
      db.filter (fun v =>
        v.session_key == (deriveSessionKey env req).1 && v.ip_address == req.ip_address) = [v0] →
      v0.last_update = some t →
      ∃ w, (processRequest env req db).requestVisitor = some w ∧
        w.session_key = v0.session_key ∧
        w.ip_address = v0.ip_address ∧
        w.page_views = v0.page_views + 1) := by
  constructor
  · intro env req db cid v0 t h1 h2 h3 hc hne hdb hfil hprior
    have hid : v0.id = some cid := by
      have := filter_single_prop db _ v0 hfil
      simpa using this
    have hl : visitorLookup env req db = Lookup.found v0 := by
      rw [visitorLookup_byId env req db cid hc hne hdb]
      exact dbGet_single db _ v0 hfil
    rw [processRequest_found env req db v0 h1 h2 h3 hl, finishTracking_requestVisitor]
    obtain ⟨-, -, -, -, -, hpv, -, -⟩ := updatedVisitor_fields env req v0
    rw [hprior] at hpv
    simp only [reduceCtorEq, if_neg] at hpv
    have hwid : (updatedVisitor env req v0).id = v0.id :=
      updatedVisitor_id_of_some env req v0 (by rw [hid]; exact fun hcon => Option.noConfusion hcon)
    exact ⟨_, rfl, by rw [hwid, hid], hpv⟩
  · intro env req db v0 t h1 h2 h3 hc hdb hfil hprior
    have hl : visitorLookup env req db = Lookup.found v0 := by
      rw [visitorLookup_byPair env req db hc hdb]
      exact dbGet_single db _ v0 hfil
    rw [processRequest_found env req db v0 h1 h2 h3 hl, finishTracking_requestVisitor]
    obtain ⟨-, hsk, hip, -, -, hpv, -, -⟩ := updatedVisitor_fields env req v0
    rw [hprior] at hpv
    simp only [reduceCtorEq, if_neg] at hpv
    exact ⟨_, rfl, hsk, hip, hpv⟩

/-- Witness for c5_cookie_identity_reuse: the returning browser presents
cookie "42" from the changed address "5.6.7.8" and is matched to the stored
row with id "42" (stored address "9.9.9.9"), its page views going from 3 to
4; a cookie-less request is matched by the session-key/address pair. -/
theorem c5_cookie_identity_reuse_witness :
    (∃ w, (processRequest env0 reqReturn [vStored, vCookie]).requestVisitor = some w ∧
      w.id = some "42".bytes ∧
      w.page_views = vCookie.page_views + 1) ∧
    (∃ w, (processRequest env0 req0 [vStored]).requestVisitor = some w ∧
      w.session_key = vStored.session_key ∧
      w.ip_address = vStored.ip_address ∧
      w.page_views = vStored.page_views + 1) :=
  ⟨c5_cookie_identity_reuse.1 env0 reqReturn [vStored, vCookie] "42".bytes vCookie 2000
     rfl rfl rfl rfl (by decide) rfl (by decide) rfl,
   c5_cookie_identity_reuse.2 env0 req0 [vStored] vStored 2000
     rfl rfl rfl rfl rfl (by decide) rfl⟩

/-- C3 counterexample: a request carrying a stale `visitor_id` cookie ("99",
matching no row) and the tracking parameter `tid=camp` reaches the not-found
branch, yet the created identity's tracking tag is empty rather than "camp":
line 123 writes the tag into `attrs`, which is the cookie dict `id: 99`
here, while line 126 builds the row from `new_attrs`. -/
theorem c3_counterexample :
    truthy reqStale.get_tid = true ∧
    truthy reqStale.cookies_visitor_id = true ∧
    Option.map Visitor.tid (processRequest env0 reqStale []).requestVisitor = some [] ∧
    "camp".bytes ≠ ([] : Str) := by
  refine ⟨rfl, rfl, by decide, by decide⟩

/-- C3 (amended): when the lookup finds no existing visitor, a new identity
keyed by `(session_key, address)` is constructed, and a recognized tracking
parameter (`tid`, else `fb_source`) is captured into its tracking tag at
creation — but only when no truthy `visitor_id` cookie was presented (a
stale cookie reaches the same branch and the tag is dropped); and the tag of
an identity the lookup found is never overwritten on later tracked
requests. -/
theorem c3_tracking_tag :
    (∀ (env : Env) (req : Request) (db : List Visitor) (t : Str),
      req.is_ajax = false →
      uaExcluded env.untracked (req.http_user_agent.take 255) = false →
      env.ignoredPaths.any (fun p => startsW p req.path) = false →
      truthy req.cookies_visitor_id = false →
      env.dbError = false →
      db.filter (fun v =>
        v.session_key == (deriveSessionKey env req).1 && v.ip_address == req.ip_address) = [] →
      pyOr req.get_tid req.get_fb_source = some t →
      t ≠ [] →
      ∃ w, (processRequest env req db).requestVisitor = some w ∧
        w.tid = t ∧
        w.session_key = (deriveSessionKey env req).1 ∧
        w.ip_address = req.ip_address) ∧
    (∀ (env : Env) (req : Request) (db : List Visitor) (v0 : Visitor),
      req.is_ajax = false →
      uaExcluded env.untracked (req.http_user_agent.take 255) = false →
      env.ignoredPaths.any (fun p => startsW p req.path) = false →
      visitorLookup env req db = Lookup.found v0 →
      ∃ w, (processRequest env req db).requestVisitor = some w ∧
        w.tid = v0.tid) := by
  constructor
  · intro env req db t h1 h2 h3 hc hdb hfil hp hne
    have hl : visitorLookup env req db = Lookup.notFound := by
      rw [visitorLookup_byPair env req db hc hdb]
      exact dbGet_empty db _ hfil
    rw [processRequest_notFound env req db h1 h2 h3 hl, finishTracking_requestVisitor]
    obtain ⟨htid, hsk, hip, -, -, -, -, -⟩ := updatedVisitor_fields env req (newVisitor env req)
    have hnewsk : (newVisitor env req).session_key = (deriveSessionKey env req).1 := rfl
    have hnewip : (newVisitor env req).ip_address = req.ip_address := rfl
    have hnewtid : (newVisitor env req).tid = t := by
      unfold newVisitor
      rw [hp, hc]
      simp [truthy_some t hne]
    exact ⟨_, rfl, by rw [htid, hnewtid], by rw [hsk, hnewsk], by rw [hip, hnewip]⟩
  · intro env req db v0 h1 h2 h3 hl
    rw [processRequest_found env req db v0 h1 h2 h3 hl, finishTracking_requestVisitor]
    obtain ⟨htid, -, -, -, -, -, -, -⟩ := updatedVisitor_fields env req v0
    exact ⟨_, rfl, htid⟩

/-- Witness for c3_tracking_tag: a cookie-less request carrying `tid=camp`
creates an identity tagged "camp" and keyed by the session key and address;
a later request resolving the stored identity leaves its tag "orig"
unchanged. -/
theorem c3_tracking_tag_witness :
    (∃ w, (processRequest env0 reqTid []).requestVisitor = some w ∧
      w.tid = "camp".bytes ∧
      w.session_key = (deriveSessionKey env0 reqTid).1 ∧
      w.ip_address = reqTid.ip_address) ∧
    (∃ w, (processRequest env0 req0 [vStored]).requestVisitor = some w ∧
      w.tid = vStored.tid) :=
  ⟨c3_tracking_tag.1 env0 reqTid [] "camp".bytes rfl rfl rfl rfl rfl (by decide) rfl (by decide),
   c3_tracking_tag.2 env0 req0 [vStored] vStored rfl rfl rfl (by decide)⟩

/-- C9: on response, a truthy visitor id resolved from the session entry, or
from the attached identity when the session entry is absent, is bound into a
`visitor_id` cookie whose value is that id, whose max-age is the session's
configured expiry, and whose domain and path come from the session-cookie
settings; a falsy resolved id leaves the response's cookies untouched. -/
theorem c9_cookie_binder :
    (∀ (ctx : ResponseCtx) (resp : HttpResponse) (v : Str),
      ctx.hasSession = true →
      ctx.sessionVisitorId = some (some v) →
      v ≠ [] →
      processResponse ctx resp =
        Except.ok { resp with cookies := resp.cookies ++ [visitorCookie v ctx] }) ∧
    (∀ (ctx : ResponseCtx) (resp : HttpResponse) (vis : Visitor) (v : Str),
      ctx.hasSession = true →
      ctx.sessionVisitorId = none →
      ctx.requestVisitor = some vis →
      vis.id = some v →
      v ≠ [] →
      processResponse ctx resp =
        Except.ok { resp with cookies := resp.cookies ++ [visitorCookie v ctx] }) ∧
    (∀ (ctx : ResponseCtx) (resp : HttpResponse),
      ctx.hasSession = true →
      truthy (resolveVid ctx) = false →
      processResponse ctx resp = Except.ok resp) ∧
    (∀ (v : Str) (ctx : ResponseCtx),
      (visitorCookie v ctx).value = v ∧
      (visitorCookie v ctx).maxAge = ctx.expiryAge ∧
      (visitorCookie v ctx).domain = ctx.cookieDomain ∧
      (visitorCookie v ctx).path = ctx.cookiePath) := by
  refine ⟨?_, ?_, ?_, ?_⟩
  · intro ctx resp v hs hsid hne
    unfold processResponse resolveVid
    rw [hs, hsid]
    simp [truthy_some v hne]
  · intro ctx resp vis v hs hsid hvis hid hne
    unfold processResponse resolveVid
    rw [hs, hsid, hvis]
    simp [hid, truthy_some v hne]
  · intro ctx resp hs hfalsy
    unfold processResponse
    rw [hs]
    simp [hfalsy]
  · intro v ctx
    exact ⟨rfl, rfl, rfl, rfl⟩

/-- Witness for c9_cookie_binder: the spec's own example (id "abc", session
expiry 3600) through all three paths, and the cookie parameter equalities. -/
theorem c9_cookie_binder_witness :
    processResponse ctxAbc resp0 =
      Except.ok { resp0 with cookies := resp0.cookies ++ [visitorCookie "abc".bytes ctxAbc] } ∧
    processResponse ctxAttached resp0 =
      Except.ok { resp0 with cookies := resp0.cookies ++ [visitorCookie "5".bytes ctxAttached] } ∧
    processResponse ctxNoId resp0 = Except.ok resp0 ∧
    ((visitorCookie "abc".bytes ctxAbc).value = "abc".bytes ∧
     (visitorCookie "abc".bytes ctxAbc).maxAge = 3600 ∧
     (visitorCookie "abc".bytes ctxAbc).domain = ctxAbc.cookieDomain ∧
     (visitorCookie "abc".bytes ctxAbc).path = ctxAbc.cookiePath) :=
  ⟨c9_cookie_binder.1 ctxAbc resp0 "abc".bytes rfl rfl (by decide),
   c9_cookie_binder.2.1 ctxAttached resp0 vStored "5".bytes rfl rfl rfl rfl (by decide),
   c9_cookie_binder.2.2.1 ctxNoId resp0 rfl rfl,
   by
     have h := c9_cookie_binder.2.2.2 "abc".bytes ctxAbc
     exact ⟨h.1, h.2.1, h.2.2.1, h.2.2.2⟩⟩

end Tracking
